import Mathlib

/-!
Shallow embedding of `immutable-core-service` (src/lib/immutable-core-service.js).

The module maintains a process-wide registry of named services.  Each service
has a `reinitialize` procedure (`module.initialize` in the source) invoked by
`initializeService`, which is driven by `initializeAll` (once, at startup) and
by `reinitializeCheck` (a recurring 1-second tick installed by
`reinitializeStart`).

Modelling conventions:
* Time (`getTimeSeconds()`, line 231-233 of the source) is modelled as `ℚ`
  (JavaScript returns a fractional number of seconds); every call site of
  `getTimeSeconds` becomes an explicit time parameter giving the clock value
  at the moment that statement runs.
* The JavaScript event loop is modelled by splitting `initializeService`
  at its only suspension point: `initializeServiceSync` is everything the
  function does synchronously before any await (lines 274-286 plus the
  returns at 277/281/304), and `initializeChain` is the `.then`/`.catch`
  continuation pair (lines 287-302) that runs when the underlying
  initialize call settles.
* Promises are identified by `Nat` ids; the data value returned by an
  initialize procedure is opaque to this module and modelled as `Nat`.
* `service.module.meta.data` (read by `getData`, written at line 294) is
  modelled as the `data` field of `Service`.
* `initCalls` is a ghost instrumentation counter: it is incremented exactly
  when the model invokes the service's initialize procedure
  (line 284 of the source, `service.module.initialize({session: {}})`).
-/

/-- Opaque payload type for the data returned by an initialize procedure. -/
abbrev SvcData := Nat

/-- A registered service: `name` and `reinitializeInterval` are set by the
constructor (lines 29, 48-57); `lastInitialized` is written at line 292;
`initializePromise` at lines 284, 290, 299; `data` models
`module.meta.data` written at line 294. -/
structure Service where
  name : String
  reinitializeInterval : Int
  lastInitialized : Option ℚ
  initializePromise : Option Nat
  data : Option SvcData
  initCalls : Nat
deriving DecidableEq

/-- Result of the synchronous part of `initializeService`:
`existing p` models the `return service.initializePromise` at line 277,
`skipped` the bare `return` at line 281, and `started p` the return of the
freshly created chain promise at line 304. -/
inductive InitCallResult where
  | existing (p : Nat)
  | skipped
  | started (p : Nat)
deriving DecidableEq

/-- The guard at line 280:
`defined(service.lastInitialized) && getTimeSeconds() - service.lastInitialized < service.reinitializeInterval`. -/
def isFresh (s : Service) (now : ℚ) : Bool :=
  match s.lastInitialized with
  | some t => decide (now - t < (s.reinitializeInterval : ℚ))
  | none => false

/-- Synchronous part of `initializeService` (lines 274-286, 304): return the
in-flight promise if one exists (line 276-278); return with no action if the
service is fresh (line 280-282); otherwise invoke the initialize procedure,
store the new chain promise `pid` on the service (line 284) and return it.
Everything here happens before any await. -/
def initializeServiceSync (s : Service) (now : ℚ) (pid : Nat) :
    InitCallResult × Service :=
  match s.initializePromise with
  | some p => (InitCallResult.existing p, s)
  | none =>
    if isFresh s now then
      (InitCallResult.skipped, s)
    else
      (InitCallResult.started pid,
        { s with initializePromise := some pid, initCalls := s.initCalls + 1 })

/-- Promise `.then` with a non-throwing handler: a fulfilled promise maps its
value through the handler, a rejected promise propagates its reason. -/
def promiseThen {E A B : Type} (p : Except E A) (f : A → B) : Except E B :=
  match p with
  | Except.ok a => Except.ok (f a)
  | Except.error e => Except.error e

/-- Promise `.catch` with a non-throwing handler: a fulfilled promise passes
through, a rejected promise is absorbed into a fulfillment. -/
def promiseCatch {E A : Type} (p : Except E A) (f : E → A) : Except E A :=
  match p with
  | Except.ok a => Except.ok a
  | Except.error e => Except.ok (f e)

/-- The `.then`/`.catch` continuations of `initializeService` (lines 287-302),
run when the initialize call settles with `outcome`, at clock value `tDone`
(the `getTimeSeconds()` call at line 292 happens inside the `.then`).
On success: clear `initializePromise`, set `lastInitialized := tDone`, set the
module data (lines 288-295).  On failure: clear `initializePromise` and log
the error via `console.error(service.error(...))` (lines 297-302), modelled
as emitting a `(serviceName, errorMessage)` report.  The value of the
returned `Except` is the settlement of the chain promise stored at line 284:
its payload is the updated service together with the emitted reports. -/
def initializeChain (s : Service) (outcome : Except String SvcData)
    (tDone : ℚ) : Except String (Service × List (String × String)) :=
  promiseCatch
    (promiseThen outcome (fun d =>
      ({ s with initializePromise := none
              , lastInitialized := some tDone
              , data := some d }, [])))
    (fun e => ({ s with initializePromise := none }, [(s.name, e)]))

/-- One complete lifecycle of a single `initializeService` call: the
synchronous part at clock `tCheck`, then, if an execution was started, its
continuation at clock `tDone` with the procedure's `outcome`. -/
def initializeRunOnce (s : Service) (tCheck : ℚ) (pid : Nat)
    (outcome : Except String SvcData) (tDone : ℚ) :
    InitCallResult × Except String (Service × List (String × String)) :=
  match initializeServiceSync s tCheck pid with
  | (InitCallResult.started p, s1) => (InitCallResult.started p, initializeChain s1 outcome tDone)
  | (r, s1) => (r, Except.ok (s1, []))

/-- The global state of the module (`global.__immutable_core_service__`,
lines 179-190, plus ghost bookkeeping for the JavaScript runtime's timer
table and promise identities):
* `services` models the `services` register (name-keyed object; JavaScript
  objects preserve insertion order, so a list in insertion order);
* `interval` models the `interval` property written at line 330;
* `activeTimers` is ghost state listing the timer ids the runtime currently
  has scheduled (`setInterval` adds one, `clearInterval` removes one);
* `nextTimerId` / `nextPromiseId` are ghost counters supplying fresh ids. -/
structure Global where
  services : List Service
  interval : Option Nat
  activeTimers : List Nat
  nextTimerId : Nat
  nextPromiseId : Nat
deriving DecidableEq

/-- `hasService` (lines 244-247): true iff a service with this name is in
the global register. -/
def hasService (name : String) (g : Global) : Bool :=
  g.services.any (fun s => s.name == name)

/-- The runtime's `setInterval`: schedule a fresh timer and return its id. -/
def setIntervalTimer (g : Global) : Nat × Global :=
  (g.nextTimerId,
    { g with activeTimers := g.nextTimerId :: g.activeTimers
           , nextTimerId := g.nextTimerId + 1 })

/-- The runtime's `clearInterval`: unschedule the timer with id `i`. -/
def clearIntervalTimer (g : Global) (i : Nat) : Global :=
  { g with activeTimers := g.activeTimers.filter (fun t => t ≠ i) }

/-- `reinitializeStop` (lines 340-347): clear the timer recorded in
`getGlobal().interval` if one is recorded.  Note the source does not unset
the `interval` property itself. -/
def reinitializeStop (g : Global) : Global :=
  match g.interval with
  | some i => clearIntervalTimer g i
  | none => g

/-- `reinitializeStart` (lines 326-331): first `reinitializeStop()`, then
schedule a new 1-second recurring timer and record its id in
`getGlobal().interval`. -/
def reinitializeStart (g : Global) : Global :=
  let g1 := reinitializeStop g
  let p := setIntervalTimer g1
  { p.2 with interval := some p.1 }

/-- `reset` (lines 356-365): `reinitializeStop()`, then discard the whole
global object and lazily recreate it (`getGlobal()`, lines 179-190), which
leaves an empty `services` register and no `interval` property.  The ghost
runtime counters survive (they belong to the runtime, not to the global). -/
def reset (g : Global) : Global :=
  let g1 := reinitializeStop g
  { g1 with services := [], interval := none }

/-- Observable events of a scheduler run, used to state ordering properties:
`invoke n` is an invocation of service `n`'s initialize procedure (line 284),
`settle n` the settlement of `n`'s initialize chain (lines 287-302),
`report n` an error report emitted for `n` (line 301), and `tickStart` the
`reinitializeStart()` call (line 261). -/
inductive Ev where
  | invoke (n : String)
  | settle (n : String)
  | report (n : String)
  | tickStart
deriving DecidableEq

/-- The synchronous fan-out phase of `servicesAll(initializeService)`
(lines 379-389): the `_.map` callback runs `initializeService` synchronously
for each registered service in order, so each service performs its
`initializeServiceSync` step before any continuation runs.  Fresh chain
promise ids are handed out sequentially starting from `pid`.  Returns the
per-service `(updated service, call result)` pairs together with the
invocation events. -/
def fanout : List Service → ℚ → Nat → List (Service × InitCallResult) × List Ev
  | [], _, _ => ([], [])
  | s :: rest, now, pid =>
    let r := initializeServiceSync s now pid
    let tail := fanout rest now (pid + 1)
    ((r.2, r.1) :: tail.1,
      (match r.1 with
       | InitCallResult.started _ => [Ev.invoke s.name]
       | _ => []) ++ tail.2)

/-- The settlement phase awaited by `Promise.all` (line 383): every promise
returned by the fan-out settles.  A `skipped` entry contributed `undefined`
to `Promise.all`, which is already fulfilled.  An `existing` or `started`
entry is the service's initialize chain promise, whose settlement applies
`initializeChain` to that service: `oc n` is the outcome of service `n`'s
initialize call and `st n` the clock value when its `.then` runs.
Returns the updated services, the settle/report events, and the
settlement of the `Promise.all` aggregate (which rejects iff some element
rejects). -/
def settleAll : List (Service × InitCallResult) → (String → Except String SvcData) →
    (String → ℚ) → List Service × List Ev × Except String Unit
  | [], _, _ => ([], [], Except.ok ())
  | (s, r) :: rest, oc, st =>
    let tail := settleAll rest oc st
    match r with
    | InitCallResult.skipped => (s :: tail.1, tail.2.1, tail.2.2)
    | _ =>
      match initializeChain s (oc s.name) (st s.name) with
      | Except.ok pr =>
        (pr.1 :: tail.1,
          (Ev.settle s.name :: pr.2.map (fun x => Ev.report x.1)) ++ tail.2.1,
          tail.2.2)
      | Except.error e => (s :: tail.1, tail.2.1, Except.error e)

/-- A complete run of `initializeAll` (lines 256-263): fan out
`initializeService` over every registered service via `servicesAll`
(line 258), await the settlement of all resulting promises, and — only if the
`Promise.all` aggregate fulfilled — run `reinitializeStart()` in its `.then`
(lines 260-262).  If the aggregate rejected, the `.then` is skipped and
`initializeAll`'s returned promise rejects with the same reason. -/
def initializeAllRun (g : Global) (now : ℚ) (oc : String → Except String SvcData)
    (st : String → ℚ) : Global × List Ev × Except String Unit :=
  let fr := fanout g.services now g.nextPromiseId
  let sr := settleAll fr.1 oc st
  let g1 : Global := { g with services := sr.1
                            , nextPromiseId := g.nextPromiseId + fr.1.length }
  match sr.2.2 with
  | Except.ok _ =>
    (reinitializeStart g1, fr.2 ++ sr.2.1 ++ [Ev.tickStart], Except.ok ())
  | Except.error e => (g1, fr.2 ++ sr.2.1, Except.error e)

/-- A complete run of `reinitializeCheck` (lines 314-317): like
`initializeAllRun` but without the trailing `reinitializeStart()`. -/
def reinitializeCheckRun (g : Global) (now : ℚ) (oc : String → Except String SvcData)
    (st : String → ℚ) : Global × List Ev × Except String Unit :=
  let fr := fanout g.services now g.nextPromiseId
  let sr := settleAll fr.1 oc st
  ({ g with services := sr.1, nextPromiseId := g.nextPromiseId + fr.1.length },
    fr.2 ++ sr.2.1, sr.2.2)

/-- JavaScript values as far as the constructor's type tests distinguish
them: `undef` (an absent property), a string, a number (the constructor only
ever truncates numbers through `parseInt`, so integer-valued numbers
suffice), or a function value. -/
inductive ArgVal where
  | undef
  | str (s : String)
  | num (n : Int)
  | fn
deriving DecidableEq

/-- Longest digit prefix of a character list. -/
def leadingDigits : List Char → List Char
  | [] => []
  | c :: cs => if c.isDigit then c :: leadingDigits cs else []

/-- Numeric value of a digit list. -/
def digitsToNat (l : List Char) : Nat :=
  l.foldl (fun a c => a * 10 + (c.toNat - 48)) 0

/-- JavaScript `parseInt` on a string: optional sign followed by leading
digits; `none` models `NaN` (no leading digits at all).  Leading-whitespace
trimming and non-decimal radix prefixes are elided — no claim involves
them. -/
def parseIntStr (s : String) : Option Int :=
  match s.data with
  | '-' :: rest =>
    match leadingDigits rest with
    | [] => none
    | ds => some (-(digitsToNat ds : Int))
  | '+' :: rest =>
    match leadingDigits rest with
    | [] => none
    | ds => some (digitsToNat ds : Int)
  | cs =>
    match leadingDigits cs with
    | [] => none
    | ds => some (digitsToNat ds : Int)

/-- JavaScript `parseInt` on an arbitrary value (line 50 applies it to
`args.reinitializeInterval`): numbers truncate to themselves (integer-valued
in this model), strings parse their leading integer, anything else is `NaN`
(`none`). -/
def parseIntJS : ArgVal → Option Int
  | ArgVal.num n => some n
  | ArgVal.str s => parseIntStr s
  | _ => none

/-- The constructor arguments the claims depend on.  `args` itself is always
an object here (the `typeof args === 'object'` assert at line 25 is about a
non-object `args` value, which no claim exercises); `methods` (line 43-46)
is elided since no claim involves additional methods.  The `initialize`
property is called `initializeFn` here. -/
structure ConstructorArgs where
  name : ArgVal
  initializeFn : ArgVal
  reinitializeInterval : Option ArgVal
deriving DecidableEq

/-- The `ImmutableCoreService` constructor (lines 23-58), in source order:
1. assert `args.name` is a string (line 27) — emptiness is not checked;
2. `ImmutableCore.module(name + 'Service', {})` (line 33) — per the source's
   own comment this throws exactly when that module name is already defined,
   so the external module register is modelled as a list of taken module
   names, extended on success;
3. assert `args.initialize` is a function (line 35);
4. assert the service name is not already registered (line 39);
5. insert the service into the global register (line 41) — note this happens
   before step 6;
6. if `args.reinitializeInterval` is defined, assert `parseInt` of it is not
   `NaN` and store the parsed value (lines 48-53), else default to 0
   (lines 54-57).  The registered object is the same object the constructor
   is mutating, so a successful parse is visible in the register, while a
   failed parse leaves the service registered with the interval still unset
   (unset behaves like 0 in the freshness guard, since `now - last <
   undefined` is false, as is `now - last < 0`).
Returns the constructed service (or the thrown error), the global state, and
the module register — both reflecting all mutations made before any throw. -/
def construct (args : ConstructorArgs) (g : Global) (modules : List String) :
    Except String Service × Global × List String :=
  match args.name with
  | ArgVal.str name =>
    if (name ++ "Service") ∈ modules then
      (Except.error "module already defined", g, modules)
    else
      let modules1 := (name ++ "Service") :: modules
      match args.initializeFn with
      | ArgVal.fn =>
        if hasService name g then
          (Except.error "service already registered", g, modules1)
        else
          let s0 : Service := ⟨name, 0, none, none, none, 0⟩
          match args.reinitializeInterval with
          | some v =>
            match parseIntJS v with
            | some i =>
              let s1 : Service := { s0 with reinitializeInterval := i }
              (Except.ok s1,
                { g with services := g.services ++ [s1] }, modules1)
            | none =>
              (Except.error "reinitializeInterval must be integer",
                { g with services := g.services ++ [s0] }, modules1)
          | none =>
            (Except.ok s0, { g with services := g.services ++ [s0] }, modules1)
      | _ => (Except.error "initialize function required", g, modules1)
  | _ => (Except.error "name required", g, modules)

/-- C1: if `initializeService` runs while a previous invocation's refresh is
in flight, no second execution starts.  Whenever a call starts an execution
(result `started q₁`), the post-state — reached before any await — already
records the chain promise `q₁` in `initializePromise`; a second call, at any
clock value, returns exactly that promise and leaves the state untouched, so
both callers await the same single execution (the same chain promise `q₁`,
hence the same resulting snapshot), and the procedure was invoked exactly
once (`initCalls` grew by one in total). -/
theorem initializeService_single_flight (s : Service) (t₁ t₂ : ℚ) (q₁ q₂ : Nat)
    (h : (initializeServiceSync s t₁ q₁).1 = InitCallResult.started q₁) :
    (initializeServiceSync s t₁ q₁).2.initializePromise = some q₁ ∧
    initializeServiceSync (initializeServiceSync s t₁ q₁).2 t₂ q₂
      = (InitCallResult.existing q₁, (initializeServiceSync s t₁ q₁).2) ∧
    (initializeServiceSync s t₁ q₁).2.initCalls = s.initCalls + 1 := by
  cases hp : s.initializePromise with
  | some p =>
    simp [initializeServiceSync, hp] at h
  | none =>
    by_cases hf : isFresh s t₁ = true
    · simp [initializeServiceSync, hp, hf] at h
    · simp only [Bool.not_eq_true] at hf
      refine ⟨?_, ?_, ?_⟩ <;> simp [initializeServiceSync, hp, hf]

/-- Witness for C1 at a concrete cold service. -/
theorem initializeService_single_flight_witness :
    (initializeServiceSync (initializeServiceSync ⟨"foo", 10, none, none, none, 0⟩ 5 1).2 9 2)
      = (InitCallResult.existing 1, (initializeServiceSync ⟨"foo", 10, none, none, none, 0⟩ 5 1).2) :=
  (initializeService_single_flight ⟨"foo", 10, none, none, none, 0⟩ 5 9 1 2 (by decide)).2.1

/-- C2: when the initialize procedure rejects, the `.catch` continuation
leaves the previously published `data` and `lastInitialized` untouched,
clears `initializePromise` (so a later check can retry), emits exactly one
report to the error sink (`console.error`), and the chain promise itself
fulfills — the failure is absorbed, never propagated.  In particular a Cold
service (no `lastInitialized`) remains Cold, and the very next check starts
a fresh execution. -/
theorem initializeService_failure_preserves (s : Service) (e : String) (tDone : ℚ) :
    initializeChain s (Except.error e) tDone
      = Except.ok ({ s with initializePromise := none }, [(s.name, e)]) ∧
    ({ s with initializePromise := none } : Service).data = s.data ∧
    ({ s with initializePromise := none } : Service).lastInitialized = s.lastInitialized ∧
    (∀ t q, s.lastInitialized = none →
      (initializeServiceSync { s with initializePromise := none } t q).1
        = InitCallResult.started q) := by
  refine ⟨rfl, rfl, rfl, ?_⟩
  intro t q hcold
  simp [initializeServiceSync, isFresh, hcold]

/-- A cold service that already has a (failed) attempt behind it, used by the
C2 witness. -/
def coldAttemptedService : Service := ⟨"foo", 10, none, none, some 3, 1⟩

/-- Witness for C2 at a concrete cold service. -/
theorem initializeService_failure_preserves_witness :
    (initializeServiceSync { coldAttemptedService with initializePromise := none } 7 4).1
      = InitCallResult.started 4 :=
  (initializeService_failure_preserves coldAttemptedService "boom" 3).2.2.2 7 4 rfl

/-- A service with `reinitializeInterval = 0` that completed its first
initialization at clock 100. -/
def zeroIntervalService : Service := ⟨"zero", 0, some 100, none, some 1, 1⟩

/-- C3 (code bug): the source's own comment at lines 54-55 says interval 0
means "do not reinitialize", but the guard at line 280 tests
`now - lastInitialized < 0`, which is false whenever the clock has not gone
backwards — so a zero-interval service that already initialized at clock 100
is reinitialized again by the very next check (here at clock 101): the call
returns `started` and the procedure's call count rises from 1 to 2. -/
theorem zeroInterval_reinitializes_every_check :
    (initializeServiceSync zeroIntervalService 101 5).1 = InitCallResult.started 5 ∧
    (initializeServiceSync zeroIntervalService 101 5).2.initCalls = 2 := by
  constructor <;>
    · simp [initializeServiceSync, zeroIntervalService, isFresh]
      norm_num

/-- C4: a service with a published snapshot (`lastInitialized = some t`), a
positive interval, and fewer than `reinitializeInterval` seconds elapsed
since `t` is left completely untouched by a scheduling check: the state
(including the `initCalls` ghost counter) is unchanged and no execution is
started. -/
theorem freshService_no_refresh (s : Service) (t now : ℚ) (pid : Nat)
    (h1 : s.lastInitialized = some t) (h2 : 0 < s.reinitializeInterval)
    (h3 : now - t < (s.reinitializeInterval : ℚ)) :
    (initializeServiceSync s now pid).2 = s ∧
    (∀ q, (initializeServiceSync s now pid).1 ≠ InitCallResult.started q) := by
  cases hp : s.initializePromise with
  | some p => exact ⟨by simp [initializeServiceSync, hp], by simp [initializeServiceSync, hp]⟩
  | none =>
    have hf : isFresh s now = true := by simp [isFresh, h1, h3]
    exact ⟨by simp [initializeServiceSync, hp, hf], by simp [initializeServiceSync, hp, hf]⟩

/-- Elapsed time 5 is below the interval 10, as rationals. -/
theorem freshWitnessFact : (105 : ℚ) - 100 < ((10 : Int) : ℚ) := by norm_num

/-- Witness for C4 at a concrete fresh service. -/
theorem freshService_no_refresh_witness :
    (initializeServiceSync (⟨"fresh", 10, some 100, none, some 7, 1⟩ : Service) 105 3).2
      = (⟨"fresh", 10, some 100, none, some 7, 1⟩ : Service) :=
  (freshService_no_refresh ⟨"fresh", 10, some 100, none, some 7, 1⟩ 100 105 3 rfl
    (by decide) freshWitnessFact).1

/-- A cold service used as the C7 counterexample input. -/
def coldService : Service := ⟨"cold", 10, none, none, none, 0⟩

/-- C7 counterexample: run the check at clock 0 (so `nowSeconds` observed by
the scheduling decision is 0) and let the procedure complete at clock 5.
The published `lastInitialized` is 5 — the completion-time sample taken at
line 292, inside the `.then` — not the 0 observed when the check started. -/
theorem snapshotTimestamp_not_checkTime :
    (initializeRunOnce coldService 0 1 (Except.ok 42) 5).2
      = Except.ok ({ coldService with initializePromise := none
                                    , lastInitialized := some 5
                                    , data := some 42
                                    , initCalls := 1 }, []) ∧
    ({ coldService with initializePromise := none
                      , lastInitialized := some (5:ℚ)
                      , data := some 42
                      , initCalls := 1 } : Service).lastInitialized ≠ some (0:ℚ) := by
  constructor
  · rfl
  · decide

/-- C7 amended: on a successful refresh the published `lastInitialized`
equals the `getTimeSeconds()` value sampled when the initialize procedure
completes (the clock at which the `.then` continuation runs), which is in
general later than the `nowSeconds` observed when the check started. -/
theorem snapshotTimestamp_is_completionTime (s : Service) (tCheck tDone : ℚ)
    (pid : Nat) (d : SvcData)
    (h : (initializeServiceSync s tCheck pid).1 = InitCallResult.started pid) :
    (initializeRunOnce s tCheck pid (Except.ok d) tDone).2
      = Except.ok ({ (initializeServiceSync s tCheck pid).2 with
                     initializePromise := none, lastInitialized := some tDone,
                     data := some d }, []) := by
  have hpair : initializeServiceSync s tCheck pid
      = (InitCallResult.started pid, (initializeServiceSync s tCheck pid).2) := by
    rw [← h]
  unfold initializeRunOnce
  rw [hpair]
  rfl

/-- Witness for the amended C7 at a concrete cold service. -/
theorem snapshotTimestamp_is_completionTime_witness :
    (initializeRunOnce coldService 2 3 (Except.ok 7) 9).2
      = Except.ok ({ (initializeServiceSync coldService 2 3).2 with
                     initializePromise := none, lastInitialized := some 9,
                     data := some 7 }, []) :=
  snapshotTimestamp_is_completionTime coldService 2 9 3 7 (by decide)

/-- An initialize chain always settles fulfilled: the `.then` handler runs on
success, the `.catch` handler absorbs a rejection, and neither handler
throws. -/
theorem initializeChain_isOk (s : Service) (o : Except String SvcData) (t : ℚ) :
    ∃ pr, initializeChain s o t = Except.ok pr := by
  cases o with
  | ok d => exact ⟨_, rfl⟩
  | error e => exact ⟨_, rfl⟩

/-- The `Promise.all` aggregate over the fan-out always fulfills, because
every element either was already `undefined` (a skipped check) or is an
initialize chain, which always fulfills. -/
theorem settleAll_aggregate_ok (l : List (Service × InitCallResult))
    (oc : String → Except String SvcData) (st : String → ℚ) :
    (settleAll l oc st).2.2 = Except.ok () := by
  induction l with
  | nil => rfl
  | cons hd tl ih =>
    obtain ⟨s, r⟩ := hd
    obtain ⟨pr, hpr⟩ := initializeChain_isOk s (oc s.name) (st s.name)
    cases r with
    | skipped => simpa [settleAll] using ih
    | existing p => simpa [settleAll, hpr] using ih
    | started p => simpa [settleAll, hpr] using ih

/-- The fan-out phase emits only `invoke` events. -/
theorem fanout_no_tickStart (l : List Service) (now : ℚ) (pid : Nat) :
    Ev.tickStart ∉ (fanout l now pid).2 := by
  induction l generalizing pid with
  | nil => simp [fanout]
  | cons hd tl ih =>
    simp only [fanout, List.mem_append]
    intro hmem
    rcases hmem with hmem | hmem
    · cases hres : (initializeServiceSync hd now pid).1 <;>
        simp [hres] at hmem
    · exact ih (pid + 1) hmem

/-- The settlement phase emits only `settle` and `report` events. -/
theorem settleAll_no_tickStart (l : List (Service × InitCallResult))
    (oc : String → Except String SvcData) (st : String → ℚ) :
    Ev.tickStart ∉ (settleAll l oc st).2.1 := by
  induction l with
  | nil => simp [settleAll]
  | cons hd tl ih =>
    obtain ⟨s, r⟩ := hd
    obtain ⟨pr, hpr⟩ := initializeChain_isOk s (oc s.name) (st s.name)
    cases r with
    | skipped => simpa [settleAll] using ih
    | existing p =>
      simp only [settleAll, hpr]
      intro hmem
      rcases List.mem_append.mp hmem with h | h
      · rcases List.mem_cons.mp h with h | h
        · exact Ev.noConfusion h
        · obtain ⟨x, _, hx⟩ := List.mem_map.mp h
          exact Ev.noConfusion hx
      · exact ih h
    | started p =>
      simp only [settleAll, hpr]
      intro hmem
      rcases List.mem_append.mp hmem with h | h
      · rcases List.mem_cons.mp h with h | h
        · exact Ev.noConfusion h
        · obtain ⟨x, _, hx⟩ := List.mem_map.mp h
          exact Ev.noConfusion hx
      · exact ih h

/-- Every registered service that is Cold (no snapshot) and not in flight
when the fan-out runs has its initialize procedure invoked. -/
theorem fanout_cold_invoked (l : List Service) (now : ℚ) (pid : Nat) :
    ∀ s ∈ l, s.initializePromise = none → s.lastInitialized = none →
      Ev.invoke s.name ∈ (fanout l now pid).2 := by
  induction l generalizing pid with
  | nil => intro s hs; simp at hs
  | cons hd tl ih =>
    intro s hs hp hl
    rcases List.mem_cons.mp hs with h | h
    · subst h
      simp [fanout, initializeServiceSync, hp, isFresh, hl]
    · simp only [fanout, List.mem_append]
      exact Or.inr (ih (pid + 1) s h hp hl)

/-- C5: a complete `initializeAll` run (a) gives every registered service a
refresh attempt — in particular every Cold, not-in-flight service has its
initialize procedure invoked; (b) its returned promise fulfills even if some
or all initialize procedures fail (the aggregate settlement is `ok`
regardless of `oc`, which supplies an arbitrary outcome for every service);
and (c) the recurring tick starts strictly after everything else in the run:
`tickStart` is the last event of the trace, occurs nowhere earlier, and the
resulting global has a tick interval installed. -/
theorem initializeAll_absorbs_failures_then_ticks (g : Global) (now : ℚ)
    (oc : String → Except String SvcData) (st : String → ℚ) :
    (initializeAllRun g now oc st).2.2 = Except.ok () ∧
    (∀ s ∈ g.services, s.initializePromise = none → s.lastInitialized = none →
      Ev.invoke s.name ∈ (initializeAllRun g now oc st).2.1) ∧
    (initializeAllRun g now oc st).2.1.getLast? = some Ev.tickStart ∧
    (∀ e ∈ (initializeAllRun g now oc st).2.1.dropLast, e ≠ Ev.tickStart) ∧
    (initializeAllRun g now oc st).1.interval.isSome = true := by
  have hagg := settleAll_aggregate_ok (fanout g.services now g.nextPromiseId).1 oc st
  have hrun : initializeAllRun g now oc st
      = (reinitializeStart
           { g with
               services := (settleAll (fanout g.services now g.nextPromiseId).1 oc st).1
             , nextPromiseId :=
                 g.nextPromiseId + (fanout g.services now g.nextPromiseId).1.length },
         (fanout g.services now g.nextPromiseId).2
           ++ (settleAll (fanout g.services now g.nextPromiseId).1 oc st).2.1
           ++ [Ev.tickStart],
         Except.ok ()) := by
    simp only [initializeAllRun]
    rw [hagg]
  refine ⟨by rw [hrun], ?_, ?_, ?_, ?_⟩
  · intro s hs hp hl
    rw [hrun]
    exact List.mem_append_left _
      (List.mem_append_left _ (fanout_cold_invoked g.services now g.nextPromiseId s hs hp hl))
  · rw [hrun]
    simp [List.getLast?_concat]
  · rw [hrun]
    simp only [List.dropLast_concat]
    intro e he heq
    subst heq
    rcases List.mem_append.mp he with hmem | hmem
    · exact fanout_no_tickStart g.services now g.nextPromiseId hmem
    · exact settleAll_no_tickStart (fanout g.services now g.nextPromiseId).1 oc st hmem
  · rw [hrun]
    rfl

/-- A single cold, zero-interval service for the C5 witness. -/
def soloService : Service := ⟨"solo", 0, none, none, none, 0⟩

/-- A registry holding only `soloService`. -/
def soloRegistry : Global := ⟨[soloService], none, [], 0, 0⟩

/-- An outcome environment in which every initialize call fails. -/
def allFailOutcome : String → Except String SvcData := fun _ => Except.error "down"

/-- A settle-time environment placing every continuation at clock 1. -/
def oneClock : String → ℚ := fun _ => 1

/-- Witness for C5: in a concrete run where the only service's initialize
call fails, that service was still attempted (its invocation is in the
trace). -/
theorem initializeAll_absorbs_failures_then_ticks_witness :
    Ev.invoke "solo" ∈ (initializeAllRun soloRegistry 0 allFailOutcome oneClock).2.1 :=
  (initializeAll_absorbs_failures_then_ticks soloRegistry 0 allFailOutcome oneClock).2.1
    soloService (List.mem_singleton.mpr rfl) rfl rfl

/-- The correspondence between the module's `interval` bookkeeping and the
runtime's timer table: every scheduled tick timer is the one recorded in
`getGlobal().interval`.  (It is not an equivalence: after `reinitializeStop`
the `interval` property still holds the cleared id.) -/
abbrev TimerInv (g : Global) : Prop := ∀ t ∈ g.activeTimers, g.interval = some t

/-- Under the timer correspondence, `reinitializeStop` leaves no scheduled
tick timer. -/
theorem reinitializeStop_clears_under_inv (g : Global) (h : TimerInv g) :
    (reinitializeStop g).activeTimers = [] := by
  unfold reinitializeStop
  cases hi : g.interval with
  | none =>
    cases ht : g.activeTimers with
    | nil => rfl
    | cons a l =>
      have ha := h a (by rw [ht]; exact List.mem_cons_self a l)
      rw [hi] at ha
      exact absurd ha (by simp)
  | some i =>
    show (clearIntervalTimer g i).activeTimers = []
    unfold clearIntervalTimer
    refine List.filter_eq_nil_iff.mpr ?_
    intro a ha
    have hai := h a ha
    rw [hi] at hai
    simp only [Option.some.injEq] at hai
    simp [hai]

/-- `reinitializeStop` touches neither the ghost timer counter nor the
`interval` record. -/
theorem reinitializeStop_preserves_counter (g : Global) :
    (reinitializeStop g).nextTimerId = g.nextTimerId := by
  unfold reinitializeStop
  cases g.interval <;> rfl

/-- Under the timer correspondence, `reinitializeStart` leaves exactly the
one freshly scheduled tick timer, recorded in `interval`. -/
theorem reinitializeStart_fresh_timer (g : Global) (h : TimerInv g) :
    (reinitializeStart g).activeTimers = [g.nextTimerId] ∧
    (reinitializeStart g).interval = some g.nextTimerId := by
  have h0 := reinitializeStop_clears_under_inv g h
  have h1 := reinitializeStop_preserves_counter g
  constructor
  · simp [reinitializeStart, setIntervalTimer, h0, h1]
  · simp [reinitializeStart, setIntervalTimer, h1]

/-- The timer correspondence is preserved by `reinitializeStart`. -/
theorem TimerInv_start (g : Global) (h : TimerInv g) :
    TimerInv (reinitializeStart g) := by
  obtain ⟨ha, hi⟩ := reinitializeStart_fresh_timer g h
  intro t ht
  rw [ha] at ht
  simp only [List.mem_singleton] at ht
  rw [hi, ht]

/-- C9: starting from any state whose scheduled tick timers are the
recorded one, any positive number of consecutive `reinitializeStart` calls
leaves exactly one scheduled tick timer, because each call clears the
previously recorded timer before scheduling a new one. -/
theorem reinitializeStart_single_tick (g : Global) (h : TimerInv g) (n : Nat) :
    (reinitializeStart^[n + 1] g).activeTimers.length = 1 := by
  induction n generalizing g with
  | zero =>
    rw [Function.iterate_one, (reinitializeStart_fresh_timer g h).1]
    rfl
  | succ n ih =>
    rw [Function.iterate_succ_apply]
    exact ih (reinitializeStart g) (TimerInv_start g h)

/-- A global with one scheduled tick timer, id 0, recorded in `interval`. -/
def tickingGlobal : Global := ⟨[], some 0, [0], 1, 0⟩

/-- Witness for C9: two consecutive starts on a concrete ticking global
leave exactly one scheduled timer. -/
theorem reinitializeStart_single_tick_witness :
    (reinitializeStart^[2] tickingGlobal).activeTimers.length = 1 :=
  reinitializeStart_single_tick tickingGlobal (by decide) 1

/-- C8: after `reset`, no service whatsoever is found (`hasService` is false
for every name, in particular every previously registered one), no tick
timer remains scheduled (so no further automatic refresh calls can occur),
and the recreated global records no interval. -/
theorem reset_clears_registry_and_tick (g : Global) (h : TimerInv g) :
    (∀ name, hasService name (reset g) = false) ∧
    (reset g).activeTimers = [] ∧
    (reset g).interval = none := by
  refine ⟨fun _ => rfl, ?_, rfl⟩
  show (reinitializeStop g).activeTimers = []
  exact reinitializeStop_clears_under_inv g h

/-- Witness for C8 on a concrete ticking global. -/
theorem reset_clears_registry_and_tick_witness :
    hasService "foo" (reset tickingGlobal) = false ∧
    (reset tickingGlobal).activeTimers = [] :=
  ⟨(reset_clears_registry_and_tick tickingGlobal (by decide)).1 "foo",
   (reset_clears_registry_and_tick tickingGlobal (by decide)).2.1⟩

/-- A fresh global state: nothing registered, no tick. -/
def emptyGlobal : Global := ⟨[], none, [], 0, 0⟩

/-- C6 counterexample: with a fresh registry and module register, the
constructor accepts the empty-string name (only `typeof === 'string'` is
checked, and the derived module name `"Service"` is unoccupied) and accepts
the negative interval `-5` (`parseInt(-5)` is `-5`, not `NaN`), returning a
registered service with `reinitializeInterval = -5` instead of throwing. -/
theorem construct_accepts_empty_name_and_negative_interval :
    (construct ⟨ArgVal.str "", ArgVal.fn, some (ArgVal.num (-5))⟩ emptyGlobal []).1
      = Except.ok ⟨"", -5, none, none, none, 0⟩ := by
  rfl

/-- C6 amended: in a state where the requested name is not yet registered
and its module name is not yet taken, the constructor throws exactly when
the name is not a string (emptiness is not checked), or the initialize value
is not a function, or a supplied `reinitializeInterval` fails to parse as an
integer at all (`parseInt` yields `NaN` — negative integers are accepted);
when `reinitializeInterval` is absent it defaults to 0. -/
theorem construct_error_characterization (args : ConstructorArgs) (g : Global)
    (modules : List String)
    (hfresh : ∀ name, args.name = ArgVal.str name →
      ((name ++ "Service") ∈ modules → False) ∧ hasService name g = false) :
    ((∃ e, (construct args g modules).1 = Except.error e) ↔
      ((∀ s, args.name ≠ ArgVal.str s) ∨ args.initializeFn ≠ ArgVal.fn ∨
        (∃ v, args.reinitializeInterval = some v ∧ parseIntJS v = none))) ∧
    (∀ name, args.name = ArgVal.str name → args.initializeFn = ArgVal.fn →
      args.reinitializeInterval = none →
      ∃ svc, (construct args g modules).1 = Except.ok svc ∧
        svc.reinitializeInterval = 0) := by
  obtain ⟨nm, fnv, iv⟩ := args
  cases nm with
  | undef =>
    exact ⟨⟨fun _ => Or.inl (fun s h => ArgVal.noConfusion h),
            fun _ => ⟨"name required", rfl⟩⟩,
           fun name2 h _ _ => ArgVal.noConfusion h⟩
  | num k =>
    exact ⟨⟨fun _ => Or.inl (fun s h => ArgVal.noConfusion h),
            fun _ => ⟨"name required", rfl⟩⟩,
           fun name2 h _ _ => ArgVal.noConfusion h⟩
  | fn =>
    exact ⟨⟨fun _ => Or.inl (fun s h => ArgVal.noConfusion h),
            fun _ => ⟨"name required", rfl⟩⟩,
           fun name2 h _ _ => ArgVal.noConfusion h⟩
  | str name =>
    obtain ⟨hm, hr⟩ := hfresh name rfl
    cases fnv with
    | undef =>
      have hc : (construct ⟨ArgVal.str name, ArgVal.undef, iv⟩ g modules).1
          = Except.error "initialize function required" := by
        simp only [construct]
        rw [if_neg hm]
      exact ⟨⟨fun _ => Or.inr (Or.inl (fun h => ArgVal.noConfusion h)),
              fun _ => ⟨_, hc⟩⟩,
             fun name2 _ hfn _ => ArgVal.noConfusion hfn⟩
    | str s2 =>
      have hc : (construct ⟨ArgVal.str name, ArgVal.str s2, iv⟩ g modules).1
          = Except.error "initialize function required" := by
        simp only [construct]
        rw [if_neg hm]
      exact ⟨⟨fun _ => Or.inr (Or.inl (fun h => ArgVal.noConfusion h)),
              fun _ => ⟨_, hc⟩⟩,
             fun name2 _ hfn _ => ArgVal.noConfusion hfn⟩
    | num k =>
      have hc : (construct ⟨ArgVal.str name, ArgVal.num k, iv⟩ g modules).1
          = Except.error "initialize function required" := by
        simp only [construct]
        rw [if_neg hm]
      exact ⟨⟨fun _ => Or.inr (Or.inl (fun h => ArgVal.noConfusion h)),
              fun _ => ⟨_, hc⟩⟩,
             fun name2 _ hfn _ => ArgVal.noConfusion hfn⟩
    | fn =>
      cases iv with
      | none =>
        have hc : (construct ⟨ArgVal.str name, ArgVal.fn, none⟩ g modules).1
            = Except.ok ⟨name, 0, none, none, none, 0⟩ := by
          simp [construct, hr]
          rw [if_neg hm]
        refine ⟨⟨?_, ?_⟩, ?_⟩
        · rintro ⟨e, he⟩
          rw [hc] at he
          exact Except.noConfusion he
        · rintro (habs | habs | ⟨v, hv, _⟩)
          · exact absurd rfl (habs name)
          · exact absurd rfl habs
          · exact Option.noConfusion hv
        · intro name2 _ _ _
          exact ⟨_, hc, rfl⟩
      | some v =>
        cases hpv : parseIntJS v with
        | some i =>
          have hc : (construct ⟨ArgVal.str name, ArgVal.fn, some v⟩ g modules).1
              = Except.ok ⟨name, i, none, none, none, 0⟩ := by
            simp [construct, hr, hpv]
            rw [if_neg hm]
          refine ⟨⟨?_, ?_⟩, ?_⟩
          · rintro ⟨e, he⟩
            rw [hc] at he
            exact Except.noConfusion he
          · rintro (habs | habs | ⟨v2, hv2, hp2⟩)
            · exact absurd rfl (habs name)
            · exact absurd rfl habs
            · obtain rfl : v2 = v := by injection hv2 with h; exact h.symm
              rw [hpv] at hp2
              exact Option.noConfusion hp2
          · intro name2 _ _ hnone
            exact Option.noConfusion hnone
        | none =>
          have hc : (construct ⟨ArgVal.str name, ArgVal.fn, some v⟩ g modules).1
              = Except.error "reinitializeInterval must be integer" := by
            simp [construct, hr, hpv]
            rw [if_neg hm]
          refine ⟨⟨?_, ?_⟩, ?_⟩
          · intro _
            exact Or.inr (Or.inr ⟨v, rfl, hpv⟩)
          · intro _
            exact ⟨_, hc⟩
          · intro name2 _ _ hnone
            exact Option.noConfusion hnone

/-- Witness for the amended C6: a fresh registration without an interval
argument succeeds and defaults the interval to 0. -/
theorem construct_error_characterization_witness :
    ∃ svc, (construct ⟨ArgVal.str "bar", ArgVal.fn, none⟩ emptyGlobal []).1
      = Except.ok svc ∧ svc.reinitializeInterval = 0 :=
  (construct_error_characterization ⟨ArgVal.str "bar", ArgVal.fn, none⟩ emptyGlobal []
    (by
      intro name h
      injection h with hh
      subst hh
      exact ⟨fun hmem => absurd hmem (List.not_mem_nil _), rfl⟩)).2 "bar" rfl rfl rfl

/-- C10: registration is not atomic — the registry insertion at line 41
precedes the interval validation at lines 48-53, so when the constructor
throws because `parseInt(reinitializeInterval)` is `NaN`, the halfway
constructed service is left in the global register: after the failed
construction, `hasService name` is true. -/
theorem construct_leaves_partial_registration (name : String) (g : Global)
    (modules : List String) (v : ArgVal)
    (h1 : (name ++ "Service") ∈ modules → False)
    (h2 : hasService name g = false) (h3 : parseIntJS v = none) :
    (construct ⟨ArgVal.str name, ArgVal.fn, some v⟩ g modules).1
      = Except.error "reinitializeInterval must be integer" ∧
    hasService name (construct ⟨ArgVal.str name, ArgVal.fn, some v⟩ g modules).2.1
      = true := by
  have hc : construct ⟨ArgVal.str name, ArgVal.fn, some v⟩ g modules
      = (Except.error "reinitializeInterval must be integer",
         { g with services := g.services ++ [⟨name, 0, none, none, none, 0⟩] },
         (name ++ "Service") :: modules) := by
    simp [construct, h2, h3]
    exact h1
  rw [hc]
  refine ⟨rfl, ?_⟩
  simp [hasService]

/-- Witness for C10: constructing with the unparseable interval `'test'` on
a fresh state throws, yet leaves the service registered. -/
theorem construct_leaves_partial_registration_witness :
    hasService "foo"
      (construct ⟨ArgVal.str "foo", ArgVal.fn, some (ArgVal.str "test")⟩ emptyGlobal []).2.1
      = true :=
  (construct_leaves_partial_registration "foo" emptyGlobal [] (ArgVal.str "test")
    (fun hmem => absurd hmem (List.not_mem_nil _)) rfl rfl).2
